import Mathlib

/-!
Verification of the icon-generation scripts of this repository.

The repository holds two Python scripts:

* `extract-icons.py` (variant A): `create_terminal_icon(size)` draws a terminal
  window with a "C" logo; its layout arithmetic is Python float arithmetic,
  `int(x * 0.8)` and friends, on IEEE-754 binary64 values.
* `generate-icons.py` (variant B): `create_icon(size, filename)` draws a
  simpler terminal; its layout arithmetic is pure integer division (`//`).

The embedding below models the float arithmetic of variant A exactly: a float
literal such as `0.8` is the binary64 value nearest the decimal fraction
(`f64ofFrac`), the product of a Python `int` with such a literal is the exact
product rounded to 53 significant bits, round-to-nearest ties-to-even
(`round53`), and Python `int(...)` on the nonnegative result is truncation,
i.e. `Nat` division by the power-of-two denominator (`pyMulInt`).  All values
arising in the scripts are nonnegative and far below any overflow threshold,
so neither sign handling nor exponent overflow needs to be modelled.

Rendering is modelled as the trace of drawing primitives issued against the
canvas (`DrawOp`), carried by an `Image` record together with the allocation
size, mode and background colour.  The batch drivers are modelled as functions
of the availability of the imaging library (`hasPIL`) and of an oracle
`saveOk : ℕ → Bool` giving the outcome of each `icon.save` call in order; an
exception raised by a save aborts the run (no handler exists in either
script).
-/

/-- Floor of the base-2 logarithm, by fuel; `lg2 f n = ⌊log₂ n⌋` whenever
`1 ≤ n ≤ f`.  (Defined with explicit fuel so that the kernel can evaluate it
during `decide`.) -/
def lg2 : ℕ → ℕ → ℕ
  | 0, _ => 0
  | f + 1, n => if n ≤ 1 then 0 else lg2 f (n / 2) + 1

/-- Round `N` to a multiple of `2 ^ p`, to nearest, ties to the even
multiple. -/
def roundAt (N p : ℕ) : ℕ :=
  if N % 2 ^ p < 2 ^ (p - 1) then N / 2 ^ p * 2 ^ p
  else if 2 ^ (p - 1) < N % 2 ^ p then (N / 2 ^ p + 1) * 2 ^ p
  else if N / 2 ^ p % 2 = 0 then N / 2 ^ p * 2 ^ p else (N / 2 ^ p + 1) * 2 ^ p

/-- Round a nonnegative integer to 53 significant binary digits,
round-to-nearest, ties to even: the mantissa rounding performed by IEEE-754
binary64 multiplication when the exact product is the integer `N` (scaled by a
power of two). -/
def round53 (N : ℕ) : ℕ :=
  if N < 2 ^ 53 then N else roundAt N (lg2 N N - 52)

/-- The binary64 value nearest the fraction `p / q` (for `0 < p ≤ q`, i.e.
values in `(0, 1]` as all float literals of the scripts are), returned as a
pair `(M, k)` meaning `M / 2^k` with `2^52 ≤ M < 2^53`.  This is what a Python
source literal such as `0.8` denotes at run time. -/
def f64ofFrac (p q : ℕ) : ℕ × ℕ :=
  let t := lg2 (q / p) (q / p)
  let k := 53 + t
  let a := p * 2 ^ k
  let d := a / q
  let r := a % q
  let M := if 2 * r < q then d else if q < 2 * r then d + 1 else if d % 2 = 0 then d else d + 1
  (M, k)

/-- Python `int(n * c)` for a nonnegative int `n` and a float literal
`c = M / 2^k`: the exact product `n * M / 2^k` is rounded to binary64
(`round53` on the numerator) and then truncated toward zero, which for
nonnegative values is floor, i.e. `Nat` division. -/
def pyMulInt (n : ℕ) (c : ℕ × ℕ) : ℕ :=
  round53 (n * c.1) / 2 ^ c.2

/-- The float literal `0.8`. -/
def lit08 : ℕ × ℕ := f64ofFrac 8 10

/-- The float literal `0.08`. -/
def lit008 : ℕ × ℕ := f64ofFrac 8 100

/-- The float literal `0.15`. -/
def lit015 : ℕ × ℕ := f64ofFrac 15 100

/-- The float literal `0.4`. -/
def lit04 : ℕ × ℕ := f64ofFrac 4 10

/-- The float literal `0.3`. -/
def lit03 : ℕ × ℕ := f64ofFrac 3 10

/-- The float literal `0.35`. -/
def lit035 : ℕ × ℕ := f64ofFrac 35 100

/-- The float literal `0.12`. -/
def lit012 : ℕ × ℕ := f64ofFrac 12 100

/-- The float literal `0.03`. -/
def lit003 : ℕ × ℕ := f64ofFrac 3 100

/-- The float literal `0.02`. -/
def lit002 : ℕ × ℕ := f64ofFrac 2 100

/-- The float literal `0.75`. -/
def lit075 : ℕ × ℕ := f64ofFrac 75 100

/-- The float literal `0.55`. -/
def lit055 : ℕ × ℕ := f64ofFrac 55 100

/-- The float literal `0.2`. -/
def lit02 : ℕ × ℕ := f64ofFrac 2 10

/-- An RGB colour triple, each channel in `0 … 255`. -/
abbrev Color := ℕ × ℕ × ℕ

/-- Conversion of a hex colour literal such as `#FF5F57` (written here as the
numeral `0xFF5F57`) to the RGB triple PIL parses it to. -/
def ofHex (n : ℕ) : Color :=
  (n / 65536, n / 256 % 256, n % 256)

/-- The image mode passed to `Image.new`; both scripts use `'RGB'`. -/
inductive Mode
  | RGB
deriving DecidableEq

/-- A drawing primitive issued against the canvas, with the exact arguments of
the corresponding PIL call.  Coordinates are integers (Python ints; they can
be negative at tiny sizes in variant A). -/
inductive DrawOp
  | rect (x0 y0 x1 y1 : ℤ) (fill : Color)
  | roundedRect (x0 y0 x1 y1 : ℤ) (radius : ℕ) (fill : Color)
  | ellipseFill (x0 y0 x1 y1 : ℤ) (fill : Color)
  | ellipseOutline (x0 y0 x1 y1 : ℤ) (outline : Color) (width : ℕ)
deriving DecidableEq

/-- A drawing primitive whose region is degenerate: its bounding box has zero
width or zero height (a point or a line rather than a two-dimensional area). -/
def isDegenerate : DrawOp → Bool
  | .rect x0 y0 x1 y1 _ => x0 = x1 || y0 = y1
  | .roundedRect x0 y0 x1 y1 _ _ => x0 = x1 || y0 = y1
  | .ellipseFill x0 y0 x1 y1 _ => x0 = x1 || y0 = y1
  | .ellipseOutline x0 y0 x1 y1 _ _ => x0 = x1 || y0 = y1

/-- An in-memory image: the allocation arguments of `Image.new` plus the trace
of drawing primitives issued against it, in order. -/
structure Image where
  mode : Mode
  width : ℕ
  height : ℕ
  background : Color
  ops : List DrawOp
deriving DecidableEq

/-- The fill colours of the filled-ellipse calls of an op trace, in order of
drawing. -/
def ellipseFillColors : List DrawOp → List Color
  | [] => []
  | .ellipseFill _ _ _ _ c :: rest => c :: ellipseFillColors rest
  | _ :: rest => ellipseFillColors rest

namespace ExtractIcons

/-! Variant A: `extract-icons.py`.  Layout quantities follow the variable
names and formulas of `create_terminal_icon` line by line; dimensions are the
results of `int(float-product)` (`pyMulInt`) or integer `//`, positions may
involve subtraction and are taken in `ℤ` with Python floor division
(`Int.fdiv`). -/

/-- `frame_size = int(size * 0.8)` -/
def frame_size (size : ℕ) : ℕ := pyMulInt size lit08

/-- `frame_x = (size - frame_size) // 2` -/
def frame_x (size : ℕ) : ℤ := ((size : ℤ) - frame_size size).fdiv 2

/-- `frame_y = (size - frame_size) // 2` -/
def frame_y (size : ℕ) : ℤ := ((size : ℤ) - frame_size size).fdiv 2

/-- `corner_radius = int(frame_size * 0.08)` -/
def corner_radius (size : ℕ) : ℕ := pyMulInt (frame_size size) lit008

/-- `header_height = int(frame_size * 0.15)` -/
def header_height (size : ℕ) : ℕ := pyMulInt (frame_size size) lit015

/-- `button_radius = int(header_height * 0.15)` -/
def button_radius (size : ℕ) : ℕ := pyMulInt (header_height size) lit015

/-- `button_y = frame_y + header_height // 2` -/
def button_y (size : ℕ) : ℤ := frame_y size + (header_height size / 2 : ℕ)

/-- `button_spacing = int(header_height * 0.4)` -/
def button_spacing (size : ℕ) : ℕ := pyMulInt (header_height size) lit04

/-- `start_x = frame_x + int(header_height * 0.3)` -/
def start_x (size : ℕ) : ℤ := frame_x size + (pyMulInt (header_height size) lit03 : ℕ)

/-- `yellow_x = start_x + button_spacing` -/
def yellow_x (size : ℕ) : ℤ := start_x size + (button_spacing size : ℕ)

/-- `green_x = start_x + button_spacing * 2` -/
def green_x (size : ℕ) : ℤ := start_x size + ((button_spacing size * 2 : ℕ) : ℤ)

/-- `content_y = frame_y + header_height` -/
def content_y (size : ℕ) : ℤ := frame_y size + (header_height size : ℕ)

/-- `content_height = frame_size - header_height` -/
def content_height (size : ℕ) : ℤ := (frame_size size : ℤ) - header_height size

/-- `logo_size = int(frame_size * 0.35)` -/
def logo_size (size : ℕ) : ℕ := pyMulInt (frame_size size) lit035

/-- `logo_x = frame_x + (frame_size - logo_size) // 2` -/
def logo_x (size : ℕ) : ℤ :=
  frame_x size + ((frame_size size : ℤ) - logo_size size).fdiv 2

/-- `logo_y = content_y + (content_height - logo_size) // 2` -/
def logo_y (size : ℕ) : ℤ :=
  content_y size + (content_height size - logo_size size).fdiv 2

/-- `c_radius = int(logo_size * 0.35)` -/
def c_radius (size : ℕ) : ℕ := pyMulInt (logo_size size) lit035

/-- `c_center_x = logo_x + logo_size // 2` -/
def c_center_x (size : ℕ) : ℤ := logo_x size + (logo_size size / 2 : ℕ)

/-- `c_center_y = logo_y + logo_size // 2` -/
def c_center_y (size : ℕ) : ℤ := logo_y size + (logo_size size / 2 : ℕ)

/-- `c_thickness = int(logo_size * 0.12)` -/
def c_thickness (size : ℕ) : ℕ := pyMulInt (logo_size size) lit012

/-- `gap_width = int(c_radius * 0.8)` -/
def gap_width (size : ℕ) : ℕ := pyMulInt (c_radius size) lit08

/-- `cursor_x = logo_x + int(logo_size * 0.75)` -/
def cursor_x (size : ℕ) : ℤ := logo_x size + (pyMulInt (logo_size size) lit075 : ℕ)

/-- `cursor_y = logo_y + int(logo_size * 0.55)` -/
def cursor_y (size : ℕ) : ℤ := logo_y size + (pyMulInt (logo_size size) lit055 : ℕ)

/-- `cursor_width = max(1, int(logo_size * 0.03))` -/
def cursor_width (size : ℕ) : ℕ := max 1 (pyMulInt (logo_size size) lit003)

/-- `cursor_height = int(logo_size * 0.15)` -/
def cursor_height (size : ℕ) : ℕ := pyMulInt (logo_size size) lit015

/-- `dot_radius = max(1, int(logo_size * 0.02))` -/
def dot_radius (size : ℕ) : ℕ := max 1 (pyMulInt (logo_size size) lit002)

/-- `dot_y = logo_y + int(logo_size * 0.8)` -/
def dot_y (size : ℕ) : ℤ := logo_y size + (pyMulInt (logo_size size) lit08 : ℕ)

/-- `dot_x = logo_x + int(logo_size * 0.2) + i * int(logo_size * 0.08)` -/
def dot_x (size i : ℕ) : ℤ :=
  logo_x size + (pyMulInt (logo_size size) lit02 : ℕ) + ((i * pyMulInt (logo_size size) lit008 : ℕ) : ℤ)

/-- `dot_color = (0, 255, 136) if i == 0 else (102, 102, 102)` -/
def dot_color (i : ℕ) : Color := if i = 0 then (0, 255, 136) else (102, 102, 102)

/-- One command-prompt dot (loop body of `for i in range(3)`):
`draw.ellipse([dot_x - dot_radius, dot_y - dot_radius, dot_x + dot_radius,
dot_y + dot_radius], fill=dot_color)`. -/
def dot_op (size i : ℕ) : DrawOp :=
  .ellipseFill (dot_x size i - dot_radius size) (dot_y size - dot_radius size)
    (dot_x size i + dot_radius size) (dot_y size + dot_radius size) (dot_color i)

/-- The image built by the body of `create_terminal_icon(size)` (after the
PIL-availability guard): `Image.new('RGB', (size, size))` — background
defaults to black — followed by every drawing call in source order. -/
def terminalImage (size : ℕ) : Image where
  mode := .RGB
  width := size
  height := size
  background := (0, 0, 0)
  ops :=
    [ .rect 0 0 size size (26, 26, 26),
      .roundedRect (frame_x size) (frame_y size) (frame_x size + frame_size size)
        (frame_y size + frame_size size) (corner_radius size) (30, 30, 30),
      .roundedRect (frame_x size) (frame_y size) (frame_x size + frame_size size)
        (frame_y size + header_height size) (corner_radius size) (45, 45, 45),
      .ellipseFill (start_x size - button_radius size) (button_y size - button_radius size)
        (start_x size + button_radius size) (button_y size + button_radius size) (255, 95, 87),
      .ellipseFill (yellow_x size - button_radius size) (button_y size - button_radius size)
        (yellow_x size + button_radius size) (button_y size + button_radius size) (255, 189, 46),
      .ellipseFill (green_x size - button_radius size) (button_y size - button_radius size)
        (green_x size + button_radius size) (button_y size + button_radius size) (40, 202, 66),
      .ellipseOutline (c_center_x size - c_radius size - c_thickness size / 2)
        (c_center_y size - c_radius size - c_thickness size / 2)
        (c_center_x size + c_radius size + c_thickness size / 2)
        (c_center_y size + c_radius size + c_thickness size / 2) (0, 255, 136) (c_thickness size),
      .rect (c_center_x size) (c_center_y size - gap_width size / 2)
        (c_center_x size + c_radius size + c_thickness size) (c_center_y size + gap_width size / 2)
        (30, 30, 30),
      .rect (cursor_x size) (cursor_y size) (cursor_x size + cursor_width size)
        (cursor_y size + cursor_height size) (0, 255, 136),
      dot_op size 0, dot_op size 1, dot_op size 2 ]

/-- `create_terminal_icon(size)`: returns `None` when PIL is unavailable,
otherwise the rendered image. -/
def create_terminal_icon (hasPIL : Bool) (size : ℕ) : Option Image :=
  if hasPIL then some (terminalImage size) else none

/-- The `icon_specs` table of `main` in `extract-icons.py`: 15 entries of
`(size, filename)`. -/
def icon_specs : List (ℕ × String) :=
  [ (20, "Icon-20.png"),
    (40, "Icon-20@2x.png"),
    (60, "Icon-20@3x.png"),
    (29, "Icon-29.png"),
    (58, "Icon-29@2x.png"),
    (87, "Icon-29@3x.png"),
    (40, "Icon-40.png"),
    (80, "Icon-40@2x.png"),
    (120, "Icon-40@3x.png"),
    (120, "Icon-60@2x.png"),
    (180, "Icon-60@3x.png"),
    (76, "Icon-76.png"),
    (152, "Icon-76@2x.png"),
    (167, "Icon-83.5@2x.png"),
    (1024, "Icon-1024.png") ]

end ExtractIcons

namespace GenerateIcons

/-! Variant B: `generate-icons.py`.  All layout arithmetic is Python integer
division on nonnegative ints, i.e. `Nat` division. -/

/-- `margin = size // 8` -/
def margin (size : ℕ) : ℕ := size / 8

/-- `rect_size = size - (margin * 2)` (never truncates: `2*(size//8) ≤ size`). -/
def rect_size (size : ℕ) : ℕ := size - margin size * 2

/-- the inline rounded-rectangle radius `size // 16` -/
def corner_radius (size : ℕ) : ℕ := size / 16

/-- `header_height = size // 12` -/
def header_height (size : ℕ) : ℕ := size / 12

/-- `dot_size = size // 32` -/
def dot_size (size : ℕ) : ℕ := size / 32

/-- `dot_y = margin + header_height // 2` -/
def dot_y (size : ℕ) : ℕ := margin size + header_height size / 2

/-- `red_x = margin + dot_size * 2` -/
def red_x (size : ℕ) : ℕ := margin size + dot_size size * 2

/-- `yellow_x = red_x + dot_size * 2` -/
def yellow_x (size : ℕ) : ℕ := red_x size + dot_size size * 2

/-- `green_x = yellow_x + dot_size * 2` -/
def green_x (size : ℕ) : ℕ := yellow_x size + dot_size size * 2

/-- `cursor_y = margin + header_height + size // 8` -/
def cursor_y (size : ℕ) : ℕ := margin size + header_height size + size / 8

/-- `cursor_x = margin + size // 16` -/
def cursor_x (size : ℕ) : ℕ := margin size + size / 16

/-- `cursor_width = size // 32` -/
def cursor_width (size : ℕ) : ℕ := size / 32

/-- `cursor_height = size // 24` -/
def cursor_height (size : ℕ) : ℕ := size / 24

/-- One traffic-light dot of `create_icon`:
`draw.ellipse([x - dot_size//2, dot_y - dot_size//2, x + dot_size//2,
dot_y + dot_size//2], fill=c)`. -/
def dot_op (size x : ℕ) (c : Color) : DrawOp :=
  .ellipseFill ((x : ℤ) - (dot_size size / 2 : ℕ)) ((dot_y size : ℤ) - (dot_size size / 2 : ℕ))
    ((x : ℤ) + (dot_size size / 2 : ℕ)) ((dot_y size : ℤ) + (dot_size size / 2 : ℕ)) c

/-- `create_icon(size, filename)`: `Image.new('RGB', (size, size),
color='#007AFF')` followed by every drawing call in source order.  The
`filename` parameter is accepted but never used by the function body. -/
def create_icon (size : ℕ) (filename : String) : Image where
  mode := .RGB
  width := size
  height := size
  background := ofHex 0x007AFF
  ops :=
    [ .roundedRect (margin size) (margin size) (margin size + rect_size size)
        (margin size + rect_size size) (corner_radius size) (ofHex 0x1C1C1E),
      .roundedRect (margin size) (margin size) (margin size + rect_size size)
        (margin size + header_height size) (corner_radius size) (ofHex 0x2C2C2E),
      dot_op size (red_x size) (ofHex 0xFF5F57),
      dot_op size (yellow_x size) (ofHex 0xFFBD2E),
      dot_op size (green_x size) (ofHex 0x28CA42),
      .rect (cursor_x size) (cursor_y size) (cursor_x size + cursor_width size)
        (cursor_y size + cursor_height size) (ofHex 0x00FF41) ]

/-- The `ICON_SIZES` table of `generate-icons.py`: 18 entries of
`(size, filename)`. -/
def ICON_SIZES : List (ℕ × String) :=
  [ (40, "iphone-20@2x.png"),
    (60, "iphone-20@3x.png"),
    (58, "iphone-29@2x.png"),
    (87, "iphone-29@3x.png"),
    (80, "iphone-40@2x.png"),
    (120, "iphone-40@3x.png"),
    (120, "iphone-60@2x.png"),
    (180, "iphone-60@3x.png"),
    (20, "ipad-20@1x.png"),
    (40, "ipad-20@2x.png"),
    (29, "ipad-29@1x.png"),
    (58, "ipad-29@2x.png"),
    (40, "ipad-40@1x.png"),
    (80, "ipad-40@2x.png"),
    (76, "ipad-76@1x.png"),
    (152, "ipad-76@2x.png"),
    (167, "ipad-83.5@2x.png"),
    (1024, "ios-marketing@1x.png") ]

end GenerateIcons

/-- A console message printed by one of the drivers (the text is abstracted to
a tag; the exact wording is not part of any claim beyond being a diagnostic
and a suggested remedy). -/
inductive Msg
  | pilMissing
  | installHint
  | htmlHint
  | generating
  | creating (size : ℕ) (name : String)
  | failedCreate (name : String)
  | allDone
deriving DecidableEq

/-- The observable outcome of running a batch driver: the files written (name
paired with the pixel size the saved image was rendered at, in write order),
the console log, and whether the run finished normally (`false` means an
unhandled exception escaped). -/
structure RunResult where
  files : List (String × ℕ)
  log : List Msg
  completed : Bool
deriving DecidableEq

namespace ExtractIcons

/-- The `for size, filename in icon_specs:` loop of `main` in
`extract-icons.py`.  `saveOk i` is the outcome of the `i`-th `icon.save`
call: `false` means the save raises, and since no handler surrounds it, the
exception aborts the loop.  A `None` icon (only possible without PIL) is
logged and skipped — the loop continues. -/
def mainLoop (hasPIL : Bool) (saveOk : ℕ → Bool) : List (ℕ × String) → ℕ → RunResult
  | [], _ => ⟨[], [], true⟩
  | (size, filename) :: rest, i =>
    match create_terminal_icon hasPIL size with
    | some _ =>
      if saveOk i then
        let r := mainLoop hasPIL saveOk rest (i + 1)
        ⟨(filename, size) :: r.files, Msg.creating size filename :: r.log, r.completed⟩
      else ⟨[], [Msg.creating size filename], false⟩
    | none =>
      let r := mainLoop hasPIL saveOk rest (i + 1)
      ⟨r.files, Msg.creating size filename :: Msg.failedCreate filename :: r.log, r.completed⟩

/-- `main()` of `extract-icons.py`: if PIL is missing it prints a diagnostic
plus remedies and returns before the loop, writing nothing; otherwise it runs
the spec-table loop and prints the closing messages only if no exception
escaped. -/
def runMain (hasPIL : Bool) (saveOk : ℕ → Bool) : RunResult :=
  if hasPIL then
    let r := mainLoop hasPIL saveOk icon_specs 0
    ⟨r.files, Msg.generating :: r.log ++ if r.completed then [Msg.allDone] else [], r.completed⟩
  else ⟨[], [Msg.pilMissing, Msg.installHint, Msg.htmlHint], true⟩

end ExtractIcons

namespace GenerateIcons

/-- The `for size, filename in ICON_SIZES:` loop of `main` in
`generate-icons.py`: `create_icon` always returns an image, `icon.save` is
unguarded, so a failing save aborts the loop. -/
def mainLoop (saveOk : ℕ → Bool) : List (ℕ × String) → ℕ → RunResult
  | [], _ => ⟨[], [], true⟩
  | (size, filename) :: rest, i =>
    if saveOk i then
      let r := mainLoop saveOk rest (i + 1)
      ⟨(filename, size) :: r.files, Msg.creating size filename :: r.log, r.completed⟩
    else ⟨[], [Msg.creating size filename], false⟩

/-- `main()` of `generate-icons.py`. -/
def runMain (saveOk : ℕ → Bool) : RunResult :=
  let r := mainLoop saveOk ICON_SIZES 0
  ⟨r.files, Msg.generating :: r.log ++ if r.completed then [Msg.allDone] else [], r.completed⟩

end GenerateIcons

/-- The length of the initial streak of successful saves over a spec list
starting at index `i`: the number of entries actually written before the
first save failure (the whole list when none fails). -/
def okStreak (saveOk : ℕ → Bool) : List (ℕ × String) → ℕ → ℕ
  | [], _ => 0
  | _ :: rest, i => if saveOk i then okStreak saveOk rest (i + 1) + 1 else 0

/-- A save oracle where exactly the first save (index 0) fails. -/
def saveFail0 : ℕ → Bool := fun i => i != 0

/-- The global mutable state visible to the renderers: only the module-level
`HAS_PIL` flag exists, and neither script ever writes to it after import. -/
structure World where
  hasPIL : Bool
deriving DecidableEq

/-- The two rendering styles (the two scripts). -/
inductive Style
  | variantA
  | variantB
deriving DecidableEq

/-- `render(size, style)`: one invocation of the rendering function of the
chosen script, returning its result together with the (unchanged) global
state. -/
def render (w : World) (size : ℕ) : Style → Option Image × World
  | .variantA => (ExtractIcons.create_terminal_icon w.hasPIL size, w)
  | .variantB => (some (GenerateIcons.create_icon size ("icon.png")), w)

namespace ExtractIcons

/-- The claim-C1 conjunction for variant A: every dimension named by the
claim — frame side, corner radius, header height, button radius, logo side,
cursor width, cursor height and dot radius — is at least 1. -/
def allPos (size : ℕ) : Prop :=
  1 ≤ frame_size size ∧ 1 ≤ corner_radius size ∧ 1 ≤ header_height size ∧
  1 ≤ button_radius size ∧ 1 ≤ logo_size size ∧ 1 ≤ cursor_width size ∧
  1 ≤ cursor_height size ∧ 1 ≤ dot_radius size

instance (size : ℕ) : Decidable (allPos size) := by unfold allPos; infer_instance

/-- The three traffic-light button centers of variant A are in strictly
increasing x-order. -/
def strictOrder (size : ℕ) : Prop :=
  start_x size < yellow_x size ∧ yellow_x size < green_x size

instance (size : ℕ) : Decidable (strictOrder size) := by unfold strictOrder; infer_instance

end ExtractIcons

namespace GenerateIcons

/-- The claim-C1 conjunction for variant B: every dimension the claim names,
in this variant's terms — frame (terminal rectangle) side, corner radius,
header height, traffic-light dot size, cursor width and cursor height — is at
least 1. -/
def allPos (size : ℕ) : Prop :=
  1 ≤ rect_size size ∧ 1 ≤ corner_radius size ∧ 1 ≤ header_height size ∧
  1 ≤ dot_size size ∧ 1 ≤ cursor_width size ∧ 1 ≤ cursor_height size

instance (size : ℕ) : Decidable (allPos size) := by unfold allPos; infer_instance

/-- The three traffic-light dot centers of variant B are in strictly
increasing x-order. -/
def strictOrder (size : ℕ) : Prop :=
  red_x size < yellow_x size ∧ yellow_x size < green_x size

instance (size : ℕ) : Decidable (strictOrder size) := by unfold strictOrder; infer_instance

end GenerateIcons


/-! ### Arithmetic facts about the float model -/

theorem lg2_spec : ∀ (f n : ℕ), 1 ≤ n → n ≤ f → 2 ^ lg2 f n ≤ n ∧ n < 2 ^ (lg2 f n + 1) := by
  intro f
  induction f with
  | zero => intro n h1 h2; omega
  | succ f ih =>
    intro n h1 h2
    by_cases h : n ≤ 1
    · have hn : n = 1 := by omega
      subst hn
      simp [lg2]
    · have h1a : 1 ≤ n / 2 := by omega
      have h2a : n / 2 ≤ f := by omega
      obtain ⟨a, b⟩ := ih (n / 2) h1a h2a
      have e : lg2 (f + 1) n = lg2 f (n / 2) + 1 := by simp [lg2, h]
      rw [e, pow_succ, pow_succ]
      rw [pow_succ] at b
      omega

theorem div_mul_le_roundAt (N p : ℕ) : N / 2 ^ p * 2 ^ p ≤ roundAt N p := by
  unfold roundAt
  split
  · exact le_rfl
  · split
    · exact Nat.mul_le_mul_right _ (Nat.le_succ _)
    · split
      · exact le_rfl
      · exact Nat.mul_le_mul_right _ (Nat.le_succ _)

theorem le_roundAt (N p : ℕ) : N - 2 ^ (p - 1) ≤ roundAt N p := by
  have hqr : N / 2 ^ p * 2 ^ p + N % 2 ^ p = N := Nat.div_add_mod' N (2 ^ p)
  have hsucc : (N / 2 ^ p + 1) * 2 ^ p = N / 2 ^ p * 2 ^ p + 2 ^ p := by ring
  have hrlt : N % 2 ^ p < 2 ^ p := Nat.mod_lt _ (by positivity)
  unfold roundAt
  set q := N / 2 ^ p with hq
  set r := N % 2 ^ p with hr
  set P := (2 : ℕ) ^ p with hP
  set H := (2 : ℕ) ^ (p - 1) with hH
  set a := q * P with ha
  set b := (q + 1) * P with hb
  clear_value a b
  clear_value q r P H
  split
  · omega
  · split
    · omega
    · split
      · omega
      · omega

theorem roundAt_le (N p : ℕ) (hp : 1 ≤ p) : roundAt N p ≤ N + 2 ^ (p - 1) := by
  have hqr : N / 2 ^ p * 2 ^ p + N % 2 ^ p = N := Nat.div_add_mod' N (2 ^ p)
  have hsucc : (N / 2 ^ p + 1) * 2 ^ p = N / 2 ^ p * 2 ^ p + 2 ^ p := by ring
  have hpow : (2 : ℕ) ^ p = 2 ^ (p - 1) * 2 := by
    rw [← pow_succ]
    congr 1
    omega
  unfold roundAt
  set q := N / 2 ^ p with hq
  set r := N % 2 ^ p with hr
  set P := (2 : ℕ) ^ p with hP
  set H := (2 : ℕ) ^ (p - 1) with hH
  set a := q * P with ha
  set b := (q + 1) * P with hb
  clear_value a b
  clear_value q r P H
  split
  · omega
  · split
    · omega
    · split
      · omega
      · omega

theorem le_round53 (N : ℕ) : N - N / 2 ^ 53 ≤ round53 N := by
  unfold round53
  split
  · exact Nat.sub_le _ _
  case isFalse hN =>
    have hN53 : 2 ^ 53 ≤ N := Nat.le_of_not_lt hN
    have hN1 : 1 ≤ N := le_trans (by norm_num) hN53
    obtain ⟨hlo, hhi⟩ := lg2_spec N N hN1 le_rfl
    have hE53 : 53 ≤ lg2 N N := by
      by_contra hc
      push_neg at hc
      have : (2 : ℕ) ^ (lg2 N N + 1) ≤ 2 ^ 53 := Nat.pow_le_pow_right (by norm_num) (by omega)
      omega
    have hHdiv : 2 ^ (lg2 N N - 52 - 1) ≤ N / 2 ^ 53 := by
      rw [Nat.le_div_iff_mul_le (by positivity)]
      calc 2 ^ (lg2 N N - 52 - 1) * 2 ^ 53 = 2 ^ (lg2 N N - 52 - 1 + 53) := by rw [pow_add]
        _ ≤ 2 ^ lg2 N N := Nat.pow_le_pow_right (by norm_num) (by omega)
        _ ≤ N := hlo
    exact le_trans (Nat.sub_le_sub_left hHdiv N) (le_roundAt N (lg2 N N - 52))

theorem round53_le (N : ℕ) : round53 N ≤ N + N / 2 ^ 53 := by
  unfold round53
  split
  · exact Nat.le_add_right _ _
  case isFalse hN =>
    have hN53 : 2 ^ 53 ≤ N := Nat.le_of_not_lt hN
    have hN1 : 1 ≤ N := le_trans (by norm_num) hN53
    obtain ⟨hlo, hhi⟩ := lg2_spec N N hN1 le_rfl
    have hE53 : 53 ≤ lg2 N N := by
      by_contra hc
      push_neg at hc
      have : (2 : ℕ) ^ (lg2 N N + 1) ≤ 2 ^ 53 := Nat.pow_le_pow_right (by norm_num) (by omega)
      omega
    have hHdiv : 2 ^ (lg2 N N - 52 - 1) ≤ N / 2 ^ 53 := by
      rw [Nat.le_div_iff_mul_le (by positivity)]
      calc 2 ^ (lg2 N N - 52 - 1) * 2 ^ 53 = 2 ^ (lg2 N N - 52 - 1 + 53) := by rw [pow_add]
        _ ≤ 2 ^ lg2 N N := Nat.pow_le_pow_right (by norm_num) (by omega)
        _ ≤ N := hlo
    exact le_trans (roundAt_le N (lg2 N N - 52) (by omega)) (Nat.add_le_add_left hHdiv N)

theorem le_pyMulInt_of (t n0 M k : ℕ) (h : t * 2 ^ (k + 53) ≤ n0 * M * (2 ^ 53 - 1)) :
    ∀ n, n0 ≤ n → t ≤ pyMulInt n (M, k) := by
  intro n hn
  unfold pyMulInt
  dsimp only
  rw [Nat.le_div_iff_mul_le (by positivity)]
  have hmono : n0 * M * (2 ^ 53 - 1) ≤ n * M * (2 ^ 53 - 1) :=
    Nat.mul_le_mul_right _ (Nat.mul_le_mul_right _ hn)
  have key : t * 2 ^ (k + 53) ≤ n * M * (2 ^ 53 - 1) := le_trans h hmono
  have expand : t * 2 ^ (k + 53) = t * 2 ^ k * 2 ^ 53 := by rw [pow_add]; ring
  rw [expand] at key
  have h1 : t * 2 ^ k ≤ n * M - n * M / 2 ^ 53 := by
    have e53 : (2 : ℕ) ^ 53 = 9007199254740992 := by norm_num
    rw [e53] at key ⊢
    set A := t * 2 ^ k with hA
    set X := n * M with hX
    clear_value A X
    omega
  exact le_trans h1 (le_round53 (n * M))

theorem le_pyMulInt_exact (t n M k : ℕ) (h1 : t * 2 ^ k ≤ n * M) (h2 : n * M < 2 ^ (k + 53)) :
    t ≤ pyMulInt n (M, k) := by
  unfold pyMulInt
  dsimp only
  rw [Nat.le_div_iff_mul_le (by positivity)]
  unfold round53
  split
  case isTrue hsm => exact h1
  case isFalse hsm =>
    set N := n * M with hN
    have hN53 : 2 ^ 53 ≤ N := Nat.le_of_not_lt hsm
    have hN1 : 1 ≤ N := le_trans (by norm_num) hN53
    obtain ⟨hlo, hhi⟩ := lg2_spec N N hN1 le_rfl
    have hE53 : 53 ≤ lg2 N N := by
      by_contra hc
      push_neg at hc
      have : (2 : ℕ) ^ (lg2 N N + 1) ≤ 2 ^ 53 := Nat.pow_le_pow_right (by norm_num) (by omega)
      omega
    have hEk : lg2 N N ≤ k + 52 := by
      by_contra hc
      push_neg at hc
      have : (2 : ℕ) ^ (k + 53) ≤ 2 ^ lg2 N N := Nat.pow_le_pow_right (by norm_num) (by omega)
      omega
    have hsk : lg2 N N - 52 ≤ k := by omega
    have hdown : t * 2 ^ k ≤ N / 2 ^ (lg2 N N - 52) * 2 ^ (lg2 N N - 52) := by
      have e1 : t * 2 ^ k = t * 2 ^ (k - (lg2 N N - 52)) * 2 ^ (lg2 N N - 52) := by
        rw [mul_assoc, ← pow_add]
        congr 2
        omega
      rw [e1]
      apply Nat.mul_le_mul_right
      rw [Nat.le_div_iff_mul_le (by positivity)]
      rw [← e1]
      exact h1
    exact le_trans hdown (div_mul_le_roundAt N (lg2 N N - 52))

theorem mainLoopA_spec (saveOk : ℕ → Bool) :
    ∀ (l : List (ℕ × String)) (i : ℕ),
      (ExtractIcons.mainLoop true saveOk l i).files =
        (l.take (okStreak saveOk l i)).map (fun p => (p.2, p.1)) ∧
      ((ExtractIcons.mainLoop true saveOk l i).completed = true ↔
        okStreak saveOk l i = l.length) := by
  intro l
  induction l with
  | nil =>
    intro i
    simp [ExtractIcons.mainLoop, okStreak]
  | cons hd tl ih =>
    intro i
    obtain ⟨size, filename⟩ := hd
    obtain ⟨ih1, ih2⟩ := ih (i + 1)
    by_cases hs : saveOk i
    · simp [ExtractIcons.mainLoop, ExtractIcons.create_terminal_icon, okStreak, hs, ih1, ih2]
    · simp [ExtractIcons.mainLoop, ExtractIcons.create_terminal_icon, okStreak, hs]

/-! ### Claim C1 -/

/-- C1 counterexample: `pixelSize = 1` is a positive integer, yet variant A
computes a frame side of `int(1 * 0.8) = 0` and variant B computes a header
height of `1 // 12 = 0`, so the claim that every dimension is at least 1 for
every `pixelSize ≥ 1` is false. -/
theorem c1_counterexample :
    ExtractIcons.frame_size 1 = 0 ∧ GenerateIcons.header_height 1 = 0 ∧
    ¬ (ExtractIcons.allPos 1 ∧ GenerateIcons.allPos 1) := by
  decide

/-- C1 (amended): for every `pixelSize ≥ 59` the layout arithmetic of both
variants yields strictly positive dimensions — frame side, corner radius,
header height, button radius, logo side, cursor width, cursor height and dot
radius in variant A, and their variant-B counterparts — all at least 1.
Below 59 some dimension is 0 (at 58 variant A's button radius is
`int(int(int(58*0.8)*0.15)*0.15) = 0`); only variant A's cursor width and dot
radius are floored to a minimum of 1 by the code, via `max(1, ...)`. -/
theorem c1_layout_positive (s : ℕ) (hs : 59 ≤ s) :
    ExtractIcons.allPos s ∧ GenerateIcons.allPos s := by
  have e08 : lit08 = (7205759403792794, 53) := by decide
  have e008 : lit008 = (5764607523034235, 56) := by decide
  have e015 : lit015 = (5404319552844595, 55) := by decide
  have e035 : lit035 = (6305039478318694, 54) := by decide
  have hframe : 47 ≤ ExtractIcons.frame_size s := by
    unfold ExtractIcons.frame_size
    rw [e08]
    exact le_pyMulInt_of 47 59 _ _ (by norm_num) s hs
  have hheader : 7 ≤ ExtractIcons.header_height s := by
    unfold ExtractIcons.header_height
    rw [e015]
    exact le_pyMulInt_of 7 47 _ _ (by norm_num) _ hframe
  have hcorner : 1 ≤ ExtractIcons.corner_radius s := by
    unfold ExtractIcons.corner_radius
    rw [e008]
    exact le_pyMulInt_of 1 47 _ _ (by norm_num) _ hframe
  have hbutton : 1 ≤ ExtractIcons.button_radius s := by
    unfold ExtractIcons.button_radius
    rw [e015]
    exact le_pyMulInt_of 1 7 _ _ (by norm_num) _ hheader
  have hlogo : 7 ≤ ExtractIcons.logo_size s := by
    unfold ExtractIcons.logo_size
    rw [e035]
    exact le_pyMulInt_of 7 47 _ _ (by norm_num) _ hframe
  have hcursorh : 1 ≤ ExtractIcons.cursor_height s := by
    unfold ExtractIcons.cursor_height
    rw [e015]
    exact le_pyMulInt_of 1 7 _ _ (by norm_num) _ hlogo
  constructor
  · unfold ExtractIcons.allPos
    refine ⟨by omega, hcorner, by omega, hbutton, by omega, ?_, hcursorh, ?_⟩
    · unfold ExtractIcons.cursor_width
      exact le_max_left 1 _
    · unfold ExtractIcons.dot_radius
      exact le_max_left 1 _
  · unfold GenerateIcons.allPos GenerateIcons.rect_size GenerateIcons.corner_radius
      GenerateIcons.header_height GenerateIcons.dot_size GenerateIcons.cursor_width
      GenerateIcons.cursor_height GenerateIcons.margin
    omega

/-- C1 witness: the amended theorem applied at the concrete size 64. -/
theorem c1_witness : 59 ≤ 64 ∧ (ExtractIcons.allPos 64 ∧ GenerateIcons.allPos 64) :=
  ⟨by decide, c1_layout_positive 64 (by decide)⟩

/-! ### Claim C2 -/

/-- C2 counterexample: at the minimum pixel size 20 of variant B the
traffic-light dot size `20 // 32`, the cursor width `20 // 32` and the cursor
height `20 // 24` all compute to 0 — not floored to 1 — and consequently the
op trace of `create_icon(20, ...)` contains draw calls with degenerate
(zero-extent) regions. -/
theorem c2_counterexample :
    GenerateIcons.dot_size 20 = 0 ∧ GenerateIcons.cursor_width 20 = 0 ∧
    GenerateIcons.cursor_height 20 = 0 ∧
    (GenerateIcons.create_icon 20 ("ipad-20@1x.png")).ops.any isDegenerate = true := by
  decide

/-- C2 (amended): at pixel size 20 in variant B the margin, rectangle side,
corner radius and header height are indeed at least 1 (with the exact values
2, 16, 1 and 1), but the traffic-light dot size, cursor width and cursor
height are 0 — nothing floors them to 1 — so the three dot ellipses and the
cursor rectangle are issued with degenerate point- or line-shaped regions
(which PIL accepts without crashing, drawing single pixels/lines). -/
theorem c2_min_size_layout :
    GenerateIcons.margin 20 = 2 ∧ GenerateIcons.rect_size 20 = 16 ∧
    GenerateIcons.corner_radius 20 = 1 ∧ GenerateIcons.header_height 20 = 1 ∧
    GenerateIcons.dot_size 20 = 0 ∧ GenerateIcons.cursor_width 20 = 0 ∧
    GenerateIcons.cursor_height 20 = 0 ∧
    (GenerateIcons.create_icon 20 ("ipad-20@1x.png")).ops.any isDegenerate = true ∧
    ((GenerateIcons.create_icon 20 ("ipad-20@1x.png")).ops.filter isDegenerate).length = 4 := by
  decide

/-! ### Claim C3 -/

/-- C3 counterexample: size 20 is a rendered size in both spec tables, and at
size 20 the three button centers coincide in both variants (the spacing
floors to 0), so the centers are not in strictly increasing x-order. -/
theorem c3_counterexample :
    ((20 : ℕ), ("ipad-20@1x.png" : String)) ∈ GenerateIcons.ICON_SIZES ∧
    ((20 : ℕ), ("Icon-20.png" : String)) ∈ ExtractIcons.icon_specs ∧
    GenerateIcons.red_x 20 = GenerateIcons.yellow_x 20 ∧
    ExtractIcons.start_x 20 = ExtractIcons.yellow_x 20 ∧
    ¬ GenerateIcons.strictOrder 20 ∧ ¬ ExtractIcons.strictOrder 20 := by
  decide

/-- C3 (amended): in both variants and for every size, the three
traffic-light buttons are filled (in drawing order red, yellow, green) with
exactly the colours `(255,95,87)`, `(255,189,46)`, `(40,202,66)`,
independently of the size; the button center x-coordinates are always
non-decreasing left-to-right, and they are strictly increasing exactly when
the computed spacing is nonzero, namely for sizes ≥ 25 in variant A and
sizes ≥ 32 in variant B (in particular at the table sizes 20 and 29 the
centers coincide). -/
theorem c3_button_colors_and_order (s : ℕ) (f : String) :
    ellipseFillColors (ExtractIcons.terminalImage s).ops =
      [(255, 95, 87), (255, 189, 46), (40, 202, 66),
       (0, 255, 136), (102, 102, 102), (102, 102, 102)] ∧
    ellipseFillColors (GenerateIcons.create_icon s f).ops =
      [(255, 95, 87), (255, 189, 46), (40, 202, 66)] ∧
    ExtractIcons.start_x s ≤ ExtractIcons.yellow_x s ∧
    ExtractIcons.yellow_x s ≤ ExtractIcons.green_x s ∧
    GenerateIcons.red_x s ≤ GenerateIcons.yellow_x s ∧
    GenerateIcons.yellow_x s ≤ GenerateIcons.green_x s ∧
    (ExtractIcons.strictOrder s ↔ 25 ≤ s) ∧
    (GenerateIcons.strictOrder s ↔ 32 ≤ s) := by
  have e08 : lit08 = (7205759403792794, 53) := by decide
  have e015 : lit015 = (5404319552844595, 55) := by decide
  have e04 : lit04 = (7205759403792794, 54) := by decide
  refine ⟨rfl, rfl, ?_, ?_, ?_, ?_, ?_, ?_⟩
  · unfold ExtractIcons.yellow_x
    omega
  · unfold ExtractIcons.green_x ExtractIcons.yellow_x
    omega
  · unfold GenerateIcons.yellow_x
    omega
  · unfold GenerateIcons.green_x
    omega
  · constructor
    · intro hstrict
      by_contra hc
      push_neg at hc
      interval_cases s <;> exact absurd hstrict (by decide)
    · intro hs
      have hsp : 1 ≤ ExtractIcons.button_spacing s := by
        rcases Nat.eq_or_lt_of_le hs with heq | hlt
        · rw [← heq]
          decide
        · have hframe : 20 ≤ ExtractIcons.frame_size s := by
            unfold ExtractIcons.frame_size
            rw [e08]
            exact le_pyMulInt_of 20 26 _ _ (by norm_num) s hlt
          have hheader : 3 ≤ ExtractIcons.header_height s := by
            rcases Nat.eq_or_lt_of_le hframe with heqf | hltf
            · unfold ExtractIcons.header_height
              rw [← heqf]
              decide
            · unfold ExtractIcons.header_height
              rw [e015]
              exact le_pyMulInt_of 3 21 _ _ (by norm_num) _ hltf
          unfold ExtractIcons.button_spacing
          rw [e04]
          exact le_pyMulInt_of 1 3 _ _ (by norm_num) _ hheader
      unfold ExtractIcons.strictOrder ExtractIcons.green_x ExtractIcons.yellow_x
      omega
  · unfold GenerateIcons.strictOrder GenerateIcons.green_x GenerateIcons.yellow_x
      GenerateIcons.red_x GenerateIcons.dot_size
    omega

/-! ### Claim C4 -/

/-- C4: for every requested size, both render functions return an RGB image
whose width and height equal exactly that size (variant A returns it wrapped
in `some` once the imaging library is available). -/
theorem c4_image_dimensions (s : ℕ) (f : String) :
    ExtractIcons.create_terminal_icon true s = some (ExtractIcons.terminalImage s) ∧
    (ExtractIcons.terminalImage s).width = s ∧ (ExtractIcons.terminalImage s).height = s ∧
    (ExtractIcons.terminalImage s).mode = Mode.RGB ∧
    (GenerateIcons.create_icon s f).width = s ∧ (GenerateIcons.create_icon s f).height = s ∧
    (GenerateIcons.create_icon s f).mode = Mode.RGB :=
  ⟨rfl, rfl, rfl, rfl, rfl, rfl, rfl⟩

/-! ### Claim C5 -/

/-- C5 counterexample: with a save oracle that fails only on the very first
entry (`saveFail0`), entry 1's own save would succeed, yet the driver writes
nothing at all and the run aborts — the loop does not continue past a save
failure, contradicting the claim that remaining entries are still rendered
and saved. -/
theorem c5_counterexample :
    saveFail0 1 = true ∧
    (ExtractIcons.runMain true saveFail0).files = [] ∧
    (ExtractIcons.runMain true saveFail0).completed = false := by
  decide

/-- C5 (amended): variant A's per-entry failure handling only covers a `None`
result of `create_terminal_icon`, which cannot occur once the PIL guard at
the top of `main` has passed; a failure of `icon.save` itself is unhandled
and aborts the whole batch.  Precisely: the files written are exactly the
entries before the first failing save (all 15 when none fails), the run
completes normally iff no save fails, and no success count is reported. -/
theorem c5_save_failure_aborts (saveOk : ℕ → Bool) :
    (ExtractIcons.runMain true saveOk).files =
      (ExtractIcons.icon_specs.take (okStreak saveOk ExtractIcons.icon_specs 0)).map
        (fun p => (p.2, p.1)) ∧
    ((ExtractIcons.runMain true saveOk).completed = true ↔
      okStreak saveOk ExtractIcons.icon_specs 0 = 15) := by
  obtain ⟨h1, h2⟩ := mainLoopA_spec saveOk ExtractIcons.icon_specs 0
  exact ⟨h1, h2⟩

/-! ### Claim C6 -/

/-- C6: the variant A spec table has exactly 15 entries and the variant B
table exactly 18; with no write failing, each driver writes exactly one file
per entry, named by that entry's filename and rendered at that entry's pixel
size, in table order; the filenames within each table are pairwise distinct;
and the sizes cover 20 up to 1024. -/
theorem c6_batch_tables :
    ExtractIcons.icon_specs.length = 15 ∧ GenerateIcons.ICON_SIZES.length = 18 ∧
    (ExtractIcons.runMain true (fun _ => true)).files =
      ExtractIcons.icon_specs.map (fun p => (p.2, p.1)) ∧
    (ExtractIcons.runMain true (fun _ => true)).completed = true ∧
    (GenerateIcons.runMain (fun _ => true)).files =
      GenerateIcons.ICON_SIZES.map (fun p => (p.2, p.1)) ∧
    (GenerateIcons.runMain (fun _ => true)).completed = true ∧
    (ExtractIcons.icon_specs.map Prod.snd).Nodup ∧
    (GenerateIcons.ICON_SIZES.map Prod.snd).Nodup ∧
    (ExtractIcons.icon_specs.map Prod.fst).min? = some 20 ∧
    (ExtractIcons.icon_specs.map Prod.fst).max? = some 1024 ∧
    (GenerateIcons.ICON_SIZES.map Prod.fst).min? = some 20 ∧
    (GenerateIcons.ICON_SIZES.map Prod.fst).max? = some 1024 := by
  decide

/-! ### Claim C7 -/

/-- C7: when the imaging library cannot be imported, `create_terminal_icon`
returns `None` for every size, and `main` prints the diagnostic plus the two
suggested remedies and returns before the loop: no file is written, whatever
the save oracle would have said. -/
theorem c7_no_pil_is_fatal (s : ℕ) (saveOk : ℕ → Bool) :
    ExtractIcons.create_terminal_icon false s = none ∧
    (ExtractIcons.runMain false saveOk).files = [] ∧
    (ExtractIcons.runMain false saveOk).log =
      [Msg.pilMissing, Msg.installHint, Msg.htmlHint] ∧
    (ExtractIcons.runMain false saveOk).completed = true :=
  ⟨rfl, rfl, rfl, rfl⟩

/-! ### Claim C8 -/

/-- C8: rendering is deterministic and touches no hidden state: a render call
leaves the global state unchanged, and a second call with the same size and
style (performed after the first) returns the identical image. -/
theorem c8_render_deterministic (w : World) (s : ℕ) (st : Style) :
    (render w s st).2 = w ∧
    (render (render w s st).2 s st).1 = (render w s st).1 := by
  cases st <;> exact ⟨rfl, rfl⟩

/-! ### Claim C10 -/

/-- C10: `create_icon` ignores its `filename` parameter entirely — any two
filenames yield identical images at every size. -/
theorem c10_filename_ignored (s : ℕ) (f1 f2 : String) :
    GenerateIcons.create_icon s f1 = GenerateIcons.create_icon s f2 :=
  rfl

theorem abs_ratio_le (f s p q c : ℕ) (hs : 1 ≤ s) (hq : 1 ≤ q)
    (hlo : p * s ≤ q * f + c) (hhi : q * f ≤ p * s + c) :
    |(f : ℚ) / s - p / q| ≤ (c : ℚ) / (q * s) := by
  have hs0 : 0 < s := hs
  have hq0 : 0 < q := hq
  have hsq : (0 : ℚ) < s := by exact_mod_cast hs0
  have hqq : (0 : ℚ) < q := by exact_mod_cast hq0
  have e : (f : ℚ) / s - p / q = ((q * f : ℚ) - p * s) / (q * s) := by
    field_simp
    ring
  rw [e, abs_div, abs_of_pos (by positivity : (0 : ℚ) < (q : ℚ) * s)]
  rw [div_le_div_iff₀ (by positivity) (by positivity)]
  have hloq : ((p : ℚ) * s) ≤ (q : ℚ) * f + c := by exact_mod_cast hlo
  have hhiq : ((q : ℚ) * f) ≤ (p : ℚ) * s + c := by exact_mod_cast hhi
  have habs : |(q * f : ℚ) - p * s| ≤ c := by
    rw [abs_le]
    constructor <;> linarith
  have hc0 : (0 : ℚ) ≤ c := by positivity
  nlinarith [abs_nonneg ((q * f : ℚ) - p * s), mul_pos hqq hsq]

/-! ### Claim C9 -/

/-- C9 counterexample: at size 13 variant B computes `frameSide = 13 - 2*(13//8) = 11`,
and `|11/13 - 3/4| = 5/52` exceeds the claimed one-pixel tolerance
`1/13 = 4/52`, so the claimed bound fails. -/
theorem c9_counterexample :
    GenerateIcons.rect_size 13 = 11 ∧
    ¬ |(GenerateIcons.rect_size 13 : ℚ) / 13 - 3 / 4| ≤ 1 / 13 := by
  have h : GenerateIcons.rect_size 13 = 11 := by decide
  refine ⟨h, ?_⟩
  rw [h]
  rw [abs_le]
  norm_num

/-- C9 (amended): the frame-side proportion is scale-invariant up to rounding,
but the tolerance differs per variant: variant A (`int(0.8*size)`, exact
binary64 arithmetic) stays within one pixel, `|frameSide(s)/s - 4/5| ≤ 1/s`,
for every size up to `2^32` (a bound far beyond the 1024 used; at
astronomically large sizes float rounding error exceeds one pixel), while
variant B (`size - 2*(size//8)`) only stays within two pixels,
`|frameSide(s)/s - 3/4| ≤ 2/s`, the worst case `7/(4s)` being attained
whenever `size % 8 = 7`. -/
theorem c9_frame_proportion (s : ℕ) (h1 : 1 ≤ s) (h2 : s ≤ 2 ^ 32) :
    |(ExtractIcons.frame_size s : ℚ) / s - 4 / 5| ≤ 1 / s ∧
    |(GenerateIcons.rect_size s : ℚ) / s - 3 / 4| ≤ 2 / s := by
  have e08 : lit08 = (7205759403792794, 53) := by decide
  have e53 : (2 : ℕ) ^ 53 = 9007199254740992 := by norm_num
  have e32 : (2 : ℕ) ^ 32 = 4294967296 := by norm_num
  rw [e32] at h2
  constructor
  · -- variant A
    have hflo : 4 * s / 5 ≤ ExtractIcons.frame_size s := by
      unfold ExtractIcons.frame_size
      rw [e08]
      apply le_pyMulInt_exact
      · rw [e53]
        omega
      · have : (2 : ℕ) ^ (53 + 53) = 81129638414606681695789005144064 := by norm_num
        rw [this]
        omega
    have hfhi : 5 * ExtractIcons.frame_size s ≤ 4 * s + 5 := by
      have hR := round53_le (s * 7205759403792794)
      have hframe : ExtractIcons.frame_size s =
          round53 (s * 7205759403792794) / 2 ^ 53 := by
        unfold ExtractIcons.frame_size
        rw [e08]
        rfl
      rw [hframe, e53] at *
      omega
    have hcalc := abs_ratio_le (ExtractIcons.frame_size s) s 4 5 5 h1 (by norm_num)
      (by omega) hfhi
    calc |(ExtractIcons.frame_size s : ℚ) / s - 4 / 5|
        ≤ (5 : ℚ) / (5 * s) := by exact_mod_cast hcalc
      _ = 1 / s := by
          rw [div_eq_div_iff (by positivity) (by positivity)]
          ring
  · -- variant B
    have hB : 3 * s ≤ 4 * GenerateIcons.rect_size s + 8 ∧
        4 * GenerateIcons.rect_size s ≤ 3 * s + 8 := by
      unfold GenerateIcons.rect_size GenerateIcons.margin
      omega
    have hcalc := abs_ratio_le (GenerateIcons.rect_size s) s 3 4 8 h1 (by norm_num)
      hB.1 hB.2
    calc |(GenerateIcons.rect_size s : ℚ) / s - 3 / 4|
        ≤ (8 : ℚ) / (4 * s) := by exact_mod_cast hcalc
      _ = 2 / s := by
          rw [div_eq_div_iff (by positivity) (by positivity)]
          ring

/-- C9 witness: the amended theorem applied at the concrete size 1024. -/
theorem c9_witness :
    (1 ≤ 1024 ∧ 1024 ≤ 2 ^ 32) ∧
    (|(ExtractIcons.frame_size 1024 : ℚ) / 1024 - 4 / 5| ≤ 1 / 1024 ∧
     |(GenerateIcons.rect_size 1024 : ℚ) / 1024 - 3 / 4| ≤ 2 / 1024) :=
  ⟨⟨by norm_num, by norm_num⟩, c9_frame_proportion 1024 (by norm_num) (by norm_num)⟩
